import Mathlib

/-!
Shallow embedding of the `mcp-google-drive` repository
(`src/gdrive_mcp_server/auth_setup.py` and `src/gdrive_mcp_server/server.py`).

Both files define a `GoogleDriveClient`.  The two variants share the
credential-validation/refresh logic but differ in the token-load phase,
in the search request they issue, and in the response reshaping.  Each
Python function is embedded as an executable Lean definition; external
collaborators (the identity provider reached by `creds.refresh`, the
Drive `files().list` / `files().get` / `get_media` endpoints, and the
`bytes.decode("utf-8")` library call) are passed in as function-valued
parameters, and the number of calls made to them is recorded in a trace
so that "exactly one call" statements can be proved.
-/

set_option autoImplicit false

namespace GDrive

/-- Bearer-token material, following `google.oauth2.credentials.Credentials`:
an access token, an optional refresh token, and an optional expiry instant
(modelled as a `Nat` timestamp; the constant clock-skew offset of the library is
immaterial to the claims and omitted). -/
structure Credential where
  token : Option String
  refresh_token : Option String
  expiry : Option Nat
deriving Repr, DecidableEq

/-- Library property `Credentials.expired`: false when no expiry is set,
otherwise the expiry has been reached at instant `now`. -/
def Credential.expired (now : Nat) (c : Credential) : Bool :=
  match c.expiry with
  | none => false
  | some e => decide (e ≤ now)

/-- Library property `Credentials.valid`: an access token is present and the
credential is not expired (this is how the library derives `valid`, so
`expired = true` forces `valid = false`). -/
def Credential.valid (now : Nat) (c : Credential) : Bool :=
  c.token.isSome && !(c.expired now)

/-- Python truthiness of `creds.refresh_token`: a present, non-empty string. -/
def Credential.hasRefreshToken (c : Credential) : Bool :=
  match c.refresh_token with
  | none => false
  | some s => !s.isEmpty

/-- A persisted token source: the path, whether a file exists there, the
extension of the path (as returned by `Path.suffix`, e.g. `".json"`), and the
outcome of attempting each deserialization of its content.
`jsonLoad = none` means `Credentials.from_authorized_user_file` raises (it
never returns a falsy value); `pickleLoad = some none` means `pickle.load`
succeeds but yields a falsy object such as `None`, `pickleLoad = none` means
it raises.  An absent file makes both loaders raise, so a source with
`pathExists = false` carries `jsonLoad = none` and `pickleLoad = none`. -/
structure TokenSource where
  path : String
  pathExists : Bool
  suffix : String
  jsonLoad : Option Credential
  pickleLoad : Option (Option Credential)
deriving Repr

/-- The error taxonomy of spec §7, with the human-readable message the code
attaches; `RefreshFailed` also carries the underlying provider error. -/
inductive AuthError where
  | NotConfigured (msg : String)
  | CorruptToken (msg : String)
  | RefreshFailed (cause : String) (msg : String)
  | Invalid (msg : String)
deriving Repr, DecidableEq

/-- auth_setup.py line 42: message of the `FileNotFoundError`. -/
def notFoundMsg (path : String) : String :=
  "Token file not found at " ++ path ++
    ". Please run auth_setup.py first to set up authentication."

/-- Both variants: message of the `RuntimeError` re-raised when loading the
token file fails (the `\x27` escapes are the single quotes of the f-string). -/
def corruptMsg (path : String) : String :=
  "Could not load token file \x27" ++ path ++
    "\x27. Supported formats: .json, .pickle"

/-- auth_setup.py lines 78-81. -/
def invalidMsgAuth : String :=
  "Invalid or missing credentials. Please run auth_setup.py to set up authentication."

/-- server.py lines 45-47. -/
def invalidMsgServer : String :=
  "Invalid or missing credentials. Please run auth_setup.py."

/-- Both variants: message of the `RuntimeError` raised on `RefreshError`. -/
def refreshFailedMsg (cause : String) : String :=
  "Error refreshing token: " ++ cause ++
    ". Please run auth_setup.py again to re-authenticate."

/-- Outcome of a resolve call, together with how many refresh round-trips
were made against the identity provider and how many deserialization
attempts of each format were made on the token file. -/
structure ResolveTrace where
  result : Except AuthError Credential
  refreshCalls : Nat
  jsonAttempts : Nat
  pickleAttempts : Nat
deriving Repr

/-- Model of Python `str.lower()` as applied to the extension of the token
path (ASCII case folding; defined by structural recursion over the character
list so that it evaluates on concrete inputs). -/
def lowerStr (s : String) : String := String.mk (s.data.map Char.toLower)

/-- Load phase of auth_setup.py `_get_credentials` (lines 47-60): dispatch on
the lower-cased suffix; `.json` loads JSON, `.pickle`/`.pkl` loads pickle, an
unknown suffix tries JSON and on any exception falls back to pickle.  Returns
the loaded value (`none` = the phase raised) and the attempt counts. -/
def loadPhaseAuth (src : TokenSource) : Option (Option Credential) × Nat × Nat :=
  let suffix := lowerStr src.suffix
  if suffix = ".json" then (src.jsonLoad.map some, 1, 0)
  else if suffix = ".pickle" then (src.pickleLoad, 0, 1)
  else if suffix = ".pkl" then (src.pickleLoad, 0, 1)
  else
    match src.jsonLoad with
    | some c => (some (some c), 1, 0)
    | none => (src.pickleLoad, 1, 1)

/-- Load phase of server.py `_load_service` (lines 25-34): `.json` loads
JSON, `.pickle` loads pickle, any other suffix raises `RuntimeError`
("Unsupported token file format") without attempting either loader. -/
def loadPhaseServer (src : TokenSource) : Option (Option Credential) × Nat × Nat :=
  let suffix := lowerStr src.suffix
  if suffix = ".json" then (src.jsonLoad.map some, 1, 0)
  else if suffix = ".pickle" then (src.pickleLoad, 0, 1)
  else (none, 0, 0)

/-- The validate/refresh logic shared verbatim by auth_setup.py lines 68-81
and server.py lines 40-51 (they differ only in the `Invalid` message):
`if not creds or not creds.valid`, then refresh when
`creds and creds.expired and creds.refresh_token`, mapping a `RefreshError`
to the refresh-failed `RuntimeError` and anything else to the invalid one.
`provider` simulates `creds.refresh(Request())`: on success it yields the
updated credential, on failure the `RefreshError` message.  The second
component counts refresh round-trips. -/
def validatePhase (now : Nat) (provider : Credential → Except String Credential)
    (invalidMsg : String) (credsOpt : Option Credential) :
    Except AuthError Credential × Nat :=
  match credsOpt with
  | none => (.error (.Invalid invalidMsg), 0)
  | some creds =>
    if creds.valid now then (.ok creds, 0)
    else if creds.expired now && creds.hasRefreshToken then
      match provider creds with
      | .ok c2 => (.ok c2, 1)
      | .error e => (.error (.RefreshFailed e (refreshFailedMsg e)), 1)
    else (.error (.Invalid invalidMsg), 0)

/-- auth_setup.py `GoogleDriveClient._get_credentials` (lines 39-83): fail
with the `FileNotFoundError` if the token file is absent, run the load phase
(any exception becomes the "Could not load token file" `RuntimeError`), then
validate/refresh. -/
def getCredentials (now : Nat) (provider : Credential → Except String Credential)
    (src : TokenSource) : ResolveTrace :=
  if src.pathExists then
    match loadPhaseAuth src with
    | (none, jA, pA) => ⟨.error (.CorruptToken (corruptMsg src.path)), 0, jA, pA⟩
    | (some credsOpt, jA, pA) =>
      let vp := validatePhase now provider invalidMsgAuth credsOpt
      ⟨vp.1, vp.2, jA, pA⟩
  else
    ⟨.error (.NotConfigured (notFoundMsg src.path)), 0, 0, 0⟩

/-- server.py `GoogleDriveClient._load_service` (lines 24-52): no existence
check — the load phase runs directly (any exception, including the
`FileNotFoundError` of an absent file or the unsupported-format error,
becomes the "Could not load token file" `RuntimeError`), then
validate/refresh. -/
def loadService (now : Nat) (provider : Credential → Except String Credential)
    (src : TokenSource) : ResolveTrace :=
  match loadPhaseServer src with
  | (none, jA, pA) => ⟨.error (.CorruptToken (corruptMsg src.path)), 0, jA, pA⟩
  | (some credsOpt, jA, pA) =>
    let vp := validatePhase now provider invalidMsgServer credsOpt
    ⟨vp.1, vp.2, jA, pA⟩

/-! ## Drive operation adapter -/

/-- A file entry of a remote listing response (narrowed by the `fields`
request parameter to `id, name, mimeType, webViewLink`); `webViewLink` may be
absent for some file kinds, and `extra` carries any further remote fields the
upstream schema might add. -/
structure RemoteFileEntry where
  id : String
  name : String
  mimeType : String
  webViewLink : Option String
  extra : List (String × String)
deriving Repr, DecidableEq

/-- A remote `files().list` response: `files` and `nextPageToken` keys, each
possibly absent. -/
structure ListResponse where
  files : Option (List RemoteFileEntry)
  nextPageToken : Option String
deriving Repr, DecidableEq

/-- The parameters of a `files().list` request as built by the code. -/
structure ListRequest where
  q : String
  pageSize : Option Nat
  pageToken : Option String
  fields : String
deriving Repr, DecidableEq

/-- The `fields` string both variants pass to `files().list`. -/
def listFields : String := "nextPageToken, files(id, name, mimeType, webViewLink)"

/-- An output entry of auth_setup.py `_format_search_response` (keys `id`,
`name`, `mime_type`, `web_view_link`; the view link is accessed with
`item["webViewLink"]`, so here it is a plain `String`). -/
structure FileSummaryA where
  id : String
  name : String
  mime_type : String
  web_view_link : String
deriving Repr, DecidableEq

/-- An output entry of server.py `_format_search_response` (keys `id`,
`name`, `mimeType`, `webViewLink`; the view link is accessed with
`item.get("webViewLink")`, so a missing link becomes `None`). -/
structure FileSummaryS where
  id : String
  name : String
  mimeType : String
  webViewLink : Option String
deriving Repr, DecidableEq

/-- auth_setup.py `_format_search_response` output: the reshaped file list
plus `next_page_token` = `response.get("nextPageToken")`. -/
structure SearchResultA where
  files : List FileSummaryA
  next_page_token : Option String
deriving Repr, DecidableEq

/-- server.py `_format_search_response` output: only a `files` key. -/
structure SearchResultS where
  files : List FileSummaryS
deriving Repr, DecidableEq

/-- One comprehension step of auth_setup.py `_format_search_response`
(lines 173-181): project the four narrowed fields, raising `KeyError` when
`webViewLink` is absent. -/
def formatEntryAuth (it : RemoteFileEntry) : Except String FileSummaryA :=
  match it.webViewLink with
  | none => .error "KeyError: \x27webViewLink\x27"
  | some l => .ok ⟨it.id, it.name, it.mimeType, l⟩

/-- The list comprehension of auth_setup.py `_format_search_response`
(lines 173-181): reshape the entries in order, stopping at the first
`KeyError`. -/
def formatFilesAuth : List RemoteFileEntry → Except String (List FileSummaryA)
  | [] => .ok []
  | it :: rest =>
    match formatEntryAuth it with
    | .error e => .error e
    | .ok f =>
      match formatFilesAuth rest with
      | .error e => .error e
      | .ok fs => .ok (f :: fs)

/-- auth_setup.py `_format_search_response` (lines 170-186): reshape
`response.get("files", [])` entry by entry in order and pass
`response.get("nextPageToken")` through. -/
def formatSearchResponseAuth (response : ListResponse) : Except String SearchResultA :=
  match formatFilesAuth (response.files.getD []) with
  | .error e => .error e
  | .ok fs => .ok ⟨fs, response.nextPageToken⟩

/-- The `for item in items: formatted_files.append(...)` loop of server.py
`_format_search_response` (lines 102-110): project the four narrowed fields
in order, `webViewLink` via `.get` (missing becomes `none`). -/
def formatFilesServer : List RemoteFileEntry → List FileSummaryS
  | [] => []
  | it :: rest => ⟨it.id, it.name, it.mimeType, it.webViewLink⟩ :: formatFilesServer rest

/-- server.py `_format_search_response` (lines 100-111): reshape
`response.get("files", [])`; the returned dict has only a `files` key (the
field `nextPageToken` of the response is not propagated). -/
def formatSearchResponseServer (response : ListResponse) : SearchResultS :=
  ⟨formatFilesServer (response.files.getD [])⟩

/-- Outcome of a search call together with the listing requests issued. -/
structure SearchTrace (α : Type) where
  requests : List ListRequest
  result : α

/-- auth_setup.py `search_files` (lines 114-136): build one `files().list`
request with `q = f"name contains ...{query}..."` (single quotes around the query), `pageSize = page_size`,
`pageToken = page_token` and the narrowed `fields`; on success reshape the
response, and on any exception (remote failure, or the `KeyError` raised
while reshaping) return `{"error": str(err)}` — modelled as `.error` holding
that string.  `api` simulates `.execute()` on the remote endpoint. -/
def authListRequest (query : String) (page_size : Nat)
    (page_token : Option String) : ListRequest :=
  { q := "name contains \x27" ++ query ++ "\x27"
    pageSize := some page_size
    pageToken := page_token
    fields := listFields }

def searchFilesAuth (api : ListRequest → Except String ListResponse)
    (query : String) (page_size : Nat) (page_token : Option String) :
    SearchTrace (Except String SearchResultA) :=
  match api (authListRequest query page_size page_token) with
  | .error e => ⟨[authListRequest query page_size page_token], .error e⟩
  | .ok response =>
    match formatSearchResponseAuth response with
    | .error e => ⟨[authListRequest query page_size page_token], .error e⟩
    | .ok r => ⟨[authListRequest query page_size page_token], .ok r⟩

/-- server.py `search_files` (lines 58-71): build one `files().list` request
with `q = query` (the raw query string, no name-contains wrapping and no
page-size or page-token parameter); on failure raise
`RuntimeError(f"Error searching files: {e}")`. -/
def serverListRequest (query : String) : ListRequest :=
  { q := query
    pageSize := none
    pageToken := none
    fields := listFields }

def searchFilesServer (api : ListRequest → Except String ListResponse)
    (query : String) : SearchTrace (Except String SearchResultS) :=
  match api (serverListRequest query) with
  | .error e => ⟨[serverListRequest query], .error ("Error searching files: " ++ e)⟩
  | .ok response => ⟨[serverListRequest query], .ok (formatSearchResponseServer response)⟩

/-! ## Chunked download -/

/-- The `while not done: _, done = downloader.next_chunk()` loop of both
variants, with `MediaIoBaseDownload` appending each chunk to the `BytesIO`
buffer: the simulated transfer is the list of successive `next_chunk`
outcomes (a byte list per chunk, bytes as `Nat`), completion is signalled
after the last one, and a raising chunk aborts the loop. -/
def fetchChunks : List (Except String (List Nat)) → Except String (List Nat)
  | [] => .ok []
  | .error e :: _ => .error e
  | .ok c :: rest =>
    match fetchChunks rest with
    | .error e => .error e
    | .ok tail => .ok (c ++ tail)

/-- The remote interactions of one file fetch: the `files().get` metadata
outcome and the chunk sequence of the `get_media` transfer. -/
structure DownloadEnv where
  metadata : Except String RemoteFileEntry
  chunks : List (Except String (List Nat))

/-- auth_setup.py `get_file` output: the reshaped metadata (keys `id`,
`name`, `mime_type`, `web_view_link`) and the UTF-8-decoded content. -/
structure FileContentA where
  metadata : FileSummaryA
  content : String
deriving Repr, DecidableEq

/-- server.py `download_file` output: the reshaped metadata (keys `id`,
`name`, `mimeType`, `webViewLink` via `.get`) and the raw content bytes. -/
structure FileContentS where
  metadata : FileSummaryS
  content : List Nat
deriving Repr, DecidableEq

/-- auth_setup.py `get_file` (lines 138-168): metadata lookup, then the
chunk-download loop, then the result dict — whose metadata part reads
`metadata["webViewLink"]` (raising `KeyError` when absent) and whose content
is `fh.getvalue().decode("utf-8")` (`decode` simulates that library call).
Any exception yields `{"error": str(err)}`, modelled as `.error`. -/
def getFile (decode : List Nat → Except String String) (env : DownloadEnv) :
    Except String FileContentA :=
  match env.metadata with
  | .error e => .error e
  | .ok md =>
    match fetchChunks env.chunks with
    | .error e => .error e
    | .ok bytes =>
      match md.webViewLink with
      | none => .error "KeyError: \x27webViewLink\x27"
      | some link =>
        match decode bytes with
        | .error e => .error e
        | .ok s => .ok ⟨⟨md.id, md.name, md.mimeType, link⟩, s⟩

/-- server.py `download_file` (lines 72-99): metadata lookup, then the
chunk-download loop, then the result dict with `webViewLink` via `.get` and
the raw bytes as content; any exception is re-raised as
`RuntimeError(f"Error downloading file: {e}")`. -/
def downloadFile (env : DownloadEnv) : Except String FileContentS :=
  match env.metadata with
  | .error e => .error ("Error downloading file: " ++ e)
  | .ok md =>
    match fetchChunks env.chunks with
    | .error e => .error ("Error downloading file: " ++ e)
    | .ok bytes => .ok ⟨⟨md.id, md.name, md.mimeType, md.webViewLink⟩, bytes⟩

/-! ## Small classifiers used to state claims -/

/-- Whether an outcome is an error payload. -/
def isErr {ε α : Type} : Except ε α → Bool
  | .error _ => true
  | .ok _ => false

/-- Whether a resolve outcome is a `NotConfigured` failure. -/
def isNotConfigured : Except AuthError Credential → Bool
  | .error (.NotConfigured _) => true
  | _ => false

/-- Whether a resolve outcome is a `CorruptToken` failure. -/
def isCorruptToken : Except AuthError Credential → Bool
  | .error (.CorruptToken _) => true
  | _ => false

/-- Occurrence of `pat` as a contiguous subsequence (used to check whether a
query string is mentioned inside an error message). -/
def containsSeq (pat : List Char) : List Char → Bool
  | [] => pat.isEmpty
  | a :: as => pat.isPrefixOf (a :: as) || containsSeq pat as

/-! ## Concrete inputs used by witnesses and counterexamples -/

/-- A well-formed, non-expired credential. -/
def credValidEx : Credential := ⟨some "access-tok", some "rt", none⟩

/-- A credential that is expired at instant 10 and carries a refresh token. -/
def credExpiredEx : Credential := ⟨some "access-tok", some "rt", some 5⟩

/-- A `.json` token source holding credential `c`. -/
def srcJsonEx (c : Credential) : TokenSource :=
  ⟨"tokens.json", true, ".json", some c, none⟩

/-- An absent token source (both loaders raise on the missing file). -/
def srcAbsentEx : TokenSource := ⟨"tokens.json", false, ".json", none, none⟩

/-- An existing token source with an unknown extension whose content is
valid JSON. -/
def srcTxtJsonEx : TokenSource :=
  ⟨"tokens.txt", true, ".txt", some credValidEx, none⟩

/-- An existing `.json` token source whose content deserializes in neither
format. -/
def srcGarbageEx : TokenSource := ⟨"tokens.json", true, ".json", none, none⟩

/-- A remote listing entry with a view link and an extra remote field. -/
def entryEx : RemoteFileEntry :=
  ⟨"id1", "budget one", "text/plain", some "https://drive/view1", [("size", "123")]⟩

/-- A second remote listing entry. -/
def entry2Ex : RemoteFileEntry :=
  ⟨"id2", "budget two", "application/pdf", some "https://drive/view2", []⟩

/-- A remote listing entry lacking the `webViewLink` field. -/
def entryNoLinkEx : RemoteFileEntry :=
  ⟨"id3", "no link", "application/vnd.google-apps.form", none, []⟩

/-- A remote endpoint that always fails with "boom". -/
def apiBoom : ListRequest → Except String ListResponse := fun _ => .error "boom"

/-- A remote endpoint that returns the same response to every request. -/
def apiConst (r : ListResponse) : ListRequest → Except String ListResponse :=
  fun _ => .ok r

/-! ## Helper lemmas -/

theorem valid_false_of_expired {now : Nat} {c : Credential}
    (h : c.expired now = true) : c.valid now = false := by
  simp [Credential.valid, h]

theorem validatePhase_valid (now : Nat)
    (provider : Credential → Except String Credential) (msg : String)
    (creds : Credential) (hv : creds.valid now = true) :
    validatePhase now provider msg (some creds) = (.ok creds, 0) := by
  simp [validatePhase, hv]

theorem validatePhase_refresh (now : Nat)
    (provider : Credential → Except String Credential) (msg : String)
    (creds : Credential)
    (hexp : creds.expired now = true) (hrt : creds.hasRefreshToken = true) :
    validatePhase now provider msg (some creds) =
      match provider creds with
      | .ok c2 => (.ok c2, 1)
      | .error e => (.error (.RefreshFailed e (refreshFailedMsg e)), 1) := by
  have hv := valid_false_of_expired hexp
  simp [validatePhase, hv, hexp, hrt]

theorem getCredentials_loaded (now : Nat)
    (provider : Credential → Except String Credential) (src : TokenSource)
    (creds : Credential) (jA pA : Nat)
    (hex : src.pathExists = true)
    (hl : loadPhaseAuth src = (some (some creds), jA, pA)) :
    getCredentials now provider src =
      ⟨(validatePhase now provider invalidMsgAuth (some creds)).1,
       (validatePhase now provider invalidMsgAuth (some creds)).2, jA, pA⟩ := by
  simp [getCredentials, hex, hl]

theorem loadService_loaded (now : Nat)
    (provider : Credential → Except String Credential) (src : TokenSource)
    (creds : Credential) (jA pA : Nat)
    (hl : loadPhaseServer src = (some (some creds), jA, pA)) :
    loadService now provider src =
      ⟨(validatePhase now provider invalidMsgServer (some creds)).1,
       (validatePhase now provider invalidMsgServer (some creds)).2, jA, pA⟩ := by
  simp [loadService, hl]

/-! ## Claims -/

/-- C1: in both variants, whenever the loaded credential is expired and
carries a refresh token, resolve performs exactly one refresh round-trip
against the identity provider; if the provider call succeeds the updated
credential is returned, and if it fails resolve fails with `RefreshFailed`
carrying the underlying cause and the "run auth_setup.py again" remediation
message, performing no further calls (the refresh count stays 1). -/
theorem resolve_refresh_roundtrip (now : Nat)
    (provider : Credential → Except String Credential) (src : TokenSource)
    (creds : Credential)
    (hexp : creds.expired now = true) (hrt : creds.hasRefreshToken = true) :
    (src.pathExists = true → (loadPhaseAuth src).1 = some (some creds) →
      (getCredentials now provider src).refreshCalls = 1 ∧
      (∀ c2, provider creds = .ok c2 →
        (getCredentials now provider src).result = .ok c2) ∧
      (∀ e, provider creds = .error e →
        (getCredentials now provider src).result =
          .error (.RefreshFailed e (refreshFailedMsg e)))) ∧
    ((loadPhaseServer src).1 = some (some creds) →
      (loadService now provider src).refreshCalls = 1 ∧
      (∀ c2, provider creds = .ok c2 →
        (loadService now provider src).result = .ok c2) ∧
      (∀ e, provider creds = .error e →
        (loadService now provider src).result =
          .error (.RefreshFailed e (refreshFailedMsg e)))) := by
  constructor
  · intro hex hload
    rcases hl : loadPhaseAuth src with ⟨l, jA, pA⟩
    rw [hl] at hload
    simp only at hload
    subst hload
    rw [getCredentials_loaded now provider src creds jA pA hex hl,
      validatePhase_refresh now provider invalidMsgAuth creds hexp hrt]
    refine ⟨?_, fun c2 h2 => ?_, fun e h2 => ?_⟩
    · cases provider creds <;> rfl
    · rw [h2]
    · rw [h2]
  · intro hload
    rcases hl : loadPhaseServer src with ⟨l, jA, pA⟩
    rw [hl] at hload
    simp only at hload
    subst hload
    rw [loadService_loaded now provider src creds jA pA hl,
      validatePhase_refresh now provider invalidMsgServer creds hexp hrt]
    refine ⟨?_, fun c2 h2 => ?_, fun e h2 => ?_⟩
    · cases provider creds <;> rfl
    · rw [h2]
    · rw [h2]

/-- C1 witness: a credential expired at instant 10 with refresh token,
loaded from a `.json` source; a succeeding provider yields the updated
credential with one refresh call, a failing provider yields `RefreshFailed`
wrapping the cause, still with exactly one refresh call. -/
theorem resolve_refresh_roundtrip_witness :
    (getCredentials 10 (fun _ => .ok credValidEx)
        (srcJsonEx credExpiredEx)).refreshCalls = 1 ∧
    (getCredentials 10 (fun _ => .ok credValidEx)
        (srcJsonEx credExpiredEx)).result = .ok credValidEx ∧
    (loadService 10 (fun _ => .error "invalid_grant")
        (srcJsonEx credExpiredEx)).refreshCalls = 1 ∧
    (loadService 10 (fun _ => .error "invalid_grant")
        (srcJsonEx credExpiredEx)).result =
      .error (.RefreshFailed "invalid_grant" (refreshFailedMsg "invalid_grant")) := by
  have h1 := resolve_refresh_roundtrip 10 (fun _ => .ok credValidEx)
    (srcJsonEx credExpiredEx) credExpiredEx (by decide) (by decide)
  have h2 := resolve_refresh_roundtrip 10 (fun _ => .error "invalid_grant")
    (srcJsonEx credExpiredEx) credExpiredEx (by decide) (by decide)
  have a1 := h1.1 rfl (by decide)
  have a2 := h2.2 (by decide)
  exact ⟨a1.1, a1.2.1 credValidEx rfl, a2.1, a2.2.2 "invalid_grant" rfl⟩

/-- C2: in both variants, a loaded credential that is already valid is
returned unchanged with zero refresh calls against the identity provider. -/
theorem resolve_valid_passthrough (now : Nat)
    (provider : Credential → Except String Credential) (src : TokenSource)
    (creds : Credential) (hv : creds.valid now = true) :
    (src.pathExists = true → (loadPhaseAuth src).1 = some (some creds) →
      (getCredentials now provider src).result = .ok creds ∧
      (getCredentials now provider src).refreshCalls = 0) ∧
    ((loadPhaseServer src).1 = some (some creds) →
      (loadService now provider src).result = .ok creds ∧
      (loadService now provider src).refreshCalls = 0) := by
  constructor
  · intro hex hload
    rcases hl : loadPhaseAuth src with ⟨l, jA, pA⟩
    rw [hl] at hload
    simp only at hload
    subst hload
    rw [getCredentials_loaded now provider src creds jA pA hex hl,
      validatePhase_valid now provider invalidMsgAuth creds hv]
    exact ⟨rfl, rfl⟩
  · intro hload
    rcases hl : loadPhaseServer src with ⟨l, jA, pA⟩
    rw [hl] at hload
    simp only at hload
    subst hload
    rw [loadService_loaded now provider src creds jA pA hl,
      validatePhase_valid now provider invalidMsgServer creds hv]
    exact ⟨rfl, rfl⟩

/-- C2 witness: a valid credential in a `.json` source is returned as-is by
both variants with zero refresh calls. -/
theorem resolve_valid_passthrough_witness :
    (getCredentials 0 Except.ok (srcJsonEx credValidEx)).result = .ok credValidEx ∧
    (getCredentials 0 Except.ok (srcJsonEx credValidEx)).refreshCalls = 0 ∧
    (loadService 0 Except.ok (srcJsonEx credValidEx)).result = .ok credValidEx ∧
    (loadService 0 Except.ok (srcJsonEx credValidEx)).refreshCalls = 0 := by
  have h := resolve_valid_passthrough 0 Except.ok (srcJsonEx credValidEx)
    credValidEx (by decide)
  have a1 := h.1 rfl (by decide)
  have a2 := h.2 (by decide)
  exact ⟨a1.1, a1.2, a2.1, a2.2⟩

/-- C3 counterexample: the server.py variant has no existence check, so on
an absent `tokens.json` it does attempt the JSON deserialization (which
raises on the missing file) and fails with the generic `CorruptToken`
"Could not load token file" error rather than `NotConfigured`. -/
theorem loadService_absent_not_notConfigured :
    (loadService 0 Except.ok srcAbsentEx).jsonAttempts = 1 ∧
    isNotConfigured (loadService 0 Except.ok srcAbsentEx).result = false ∧
    (loadService 0 Except.ok srcAbsentEx).result =
      .error (.CorruptToken (corruptMsg "tokens.json")) := by
  refine ⟨rfl, rfl, rfl⟩

/-- C3 (amended): in the auth_setup.py variant, a token source with no
persisted material fails with `NotConfigured` and its "run auth_setup.py
first" message, with zero deserialization attempts of either format and
zero refresh calls; the server.py variant instead attempts format loading
and surfaces the absent file as the generic could-not-load failure. -/
theorem getCredentials_absent_notConfigured (now : Nat)
    (provider : Credential → Except String Credential) (src : TokenSource)
    (h : src.pathExists = false) :
    getCredentials now provider src =
      ⟨.error (.NotConfigured (notFoundMsg src.path)), 0, 0, 0⟩ := by
  simp [getCredentials, h]

/-- C3 witness: the amended claim evaluated on the absent source. -/
theorem getCredentials_absent_notConfigured_witness :
    getCredentials 0 Except.ok srcAbsentEx =
      ⟨.error (.NotConfigured (notFoundMsg "tokens.json")), 0, 0, 0⟩ :=
  getCredentials_absent_notConfigured 0 Except.ok srcAbsentEx rfl

/-- C4 counterexample: a token file named `tokens.txt` whose content is
valid JSON: the auth_setup.py variant falls back and resolves it, but the
server.py variant rejects the unknown extension outright — no JSON attempt,
no pickle attempt — and fails with the could-not-load error, refuting the
claim that resolve attempts JSON first and falls back to pickle for every
unknown extension. -/
theorem loadService_unknown_suffix_no_fallback :
    (loadService 0 Except.ok srcTxtJsonEx).jsonAttempts = 0 ∧
    (loadService 0 Except.ok srcTxtJsonEx).pickleAttempts = 0 ∧
    (loadService 0 Except.ok srcTxtJsonEx).result =
      .error (.CorruptToken (corruptMsg "tokens.txt")) ∧
    (getCredentials 0 Except.ok srcTxtJsonEx).result = .ok credValidEx := by
  refine ⟨rfl, rfl, rfl, rfl⟩

/-- C4 (amended): for an existing token file, (a) on an unknown extension
the auth_setup.py variant attempts JSON parsing first and attempts pickle
exactly when the JSON attempt fails, while the server.py variant fails with
the could-not-load error without attempting either format; and (b) when the
content deserializes in neither format, both variants fail with the
`CorruptToken` "Could not load token file" error. -/
theorem tokenLoad_format_contract (now : Nat)
    (provider : Credential → Except String Credential) (src : TokenSource)
    (hex : src.pathExists = true) :
    (lowerStr src.suffix ≠ ".json" → lowerStr src.suffix ≠ ".pickle" →
     lowerStr src.suffix ≠ ".pkl" →
      (getCredentials now provider src).jsonAttempts = 1 ∧
      (getCredentials now provider src).pickleAttempts =
        (if src.jsonLoad.isSome then 0 else 1) ∧
      (loadService now provider src).result =
        .error (.CorruptToken (corruptMsg src.path)) ∧
      (loadService now provider src).jsonAttempts = 0 ∧
      (loadService now provider src).pickleAttempts = 0) ∧
    (src.jsonLoad = none → src.pickleLoad = none →
      (getCredentials now provider src).result =
        .error (.CorruptToken (corruptMsg src.path)) ∧
      (loadService now provider src).result =
        .error (.CorruptToken (corruptMsg src.path))) := by
  constructor
  · intro h1 h2 h3
    have hs : loadPhaseServer src = (none, 0, 0) := by
      simp [loadPhaseServer, h1, h2]
    rcases hj : src.jsonLoad with _ | c
    · rcases hp : src.pickleLoad with _ | co
      · have ha : loadPhaseAuth src = (none, 1, 1) := by
          simp [loadPhaseAuth, h1, h2, h3, hj, hp]
        simp [getCredentials, hex, ha, loadService, hs, hj]
      · have ha : loadPhaseAuth src = (some co, 1, 1) := by
          simp [loadPhaseAuth, h1, h2, h3, hj, hp]
        simp [getCredentials, hex, ha, loadService, hs, hj]
    · have ha : loadPhaseAuth src = (some (some c), 1, 0) := by
        simp [loadPhaseAuth, h1, h2, h3, hj]
      simp [getCredentials, hex, ha, loadService, hs, hj]
  · intro hj hp
    by_cases h1 : lowerStr src.suffix = ".json"
    · have ha : loadPhaseAuth src = (none, 1, 0) := by
        simp [loadPhaseAuth, h1, hj]
      have hs : loadPhaseServer src = (none, 1, 0) := by
        simp [loadPhaseServer, h1, hj]
      simp [getCredentials, hex, ha, loadService, hs]
    · by_cases h2 : lowerStr src.suffix = ".pickle"
      · have ha : loadPhaseAuth src = (none, 0, 1) := by
          simp [loadPhaseAuth, h1, h2, hp]
        have hs : loadPhaseServer src = (none, 0, 1) := by
          simp [loadPhaseServer, h1, h2, hp]
        simp [getCredentials, hex, ha, loadService, hs]
      · have hs : loadPhaseServer src = (none, 0, 0) := by
          simp [loadPhaseServer, h1, h2]
        by_cases h3 : lowerStr src.suffix = ".pkl"
        · have ha : loadPhaseAuth src = (none, 0, 1) := by
            simp [loadPhaseAuth, h1, h2, h3, hp]
          simp [getCredentials, hex, ha, loadService, hs]
        · have ha : loadPhaseAuth src = (none, 1, 1) := by
            simp [loadPhaseAuth, h1, h2, h3, hj, hp]
          simp [getCredentials, hex, ha, loadService, hs]

/-- C4 witness: the amended claim evaluated on an unknown-extension source
with parseable JSON content and on a `.json` source with unparseable
content. -/
theorem tokenLoad_format_contract_witness :
    ((getCredentials 0 Except.ok srcTxtJsonEx).jsonAttempts = 1 ∧
     (getCredentials 0 Except.ok srcTxtJsonEx).pickleAttempts = 0) ∧
    ((getCredentials 0 Except.ok srcGarbageEx).result =
       .error (.CorruptToken (corruptMsg "tokens.json")) ∧
     (loadService 0 Except.ok srcGarbageEx).result =
       .error (.CorruptToken (corruptMsg "tokens.json"))) := by
  have h1 := (tokenLoad_format_contract 0 Except.ok srcTxtJsonEx rfl).1
    (by decide) (by decide) (by decide)
  have h2 := (tokenLoad_format_contract 0 Except.ok srcGarbageEx rfl).2 rfl rfl
  exact ⟨⟨h1.1, h1.2.1⟩, h2⟩

/-! ### Reshaping and download helper lemmas -/

theorem formatFilesServer_map (l : List RemoteFileEntry) :
    formatFilesServer l =
      l.map (fun it => ⟨it.id, it.name, it.mimeType, it.webViewLink⟩) := by
  induction l with
  | nil => rfl
  | cons a t ih => simp [formatFilesServer, ih]

theorem formatFilesAuth_all_some (l : List RemoteFileEntry)
    (h : ∀ it ∈ l, it.webViewLink.isSome = true) :
    formatFilesAuth l =
      .ok (l.map (fun it =>
        ⟨it.id, it.name, it.mimeType, it.webViewLink.getD ""⟩)) := by
  induction l with
  | nil => rfl
  | cons a t ih =>
    have ha := h a (List.mem_cons_self a t)
    rcases hw : a.webViewLink with _ | link
    · rw [hw] at ha; simp at ha
    · have ih2 := ih (fun it hit => h it (List.mem_cons_of_mem a hit))
      simp [formatFilesAuth, formatEntryAuth, hw, ih2]

theorem formatFilesAuth_err_of_missing (l : List RemoteFileEntry)
    (h : l.any (fun it => it.webViewLink.isNone) = true) :
    ∃ e, formatFilesAuth l = .error e := by
  induction l with
  | nil => simp at h
  | cons a t ih =>
    rcases hw : a.webViewLink with _ | link
    · exact ⟨"KeyError: \x27webViewLink\x27",
        by simp [formatFilesAuth, formatEntryAuth, hw]⟩
    · have h2 : t.any (fun it => it.webViewLink.isNone) = true := by
        simpa [List.any_cons, hw] using h
      obtain ⟨e, he⟩ := ih h2
      exact ⟨e, by simp [formatFilesAuth, formatEntryAuth, hw, he]⟩

theorem fetchChunks_all_ok (cs : List (List Nat)) :
    fetchChunks (cs.map Except.ok) = .ok cs.flatten := by
  induction cs with
  | nil => rfl
  | cons c t ih => simp [fetchChunks, ih]

theorem fetchChunks_error_mem (cs : List (Except String (List Nat)))
    (h : ∃ e, Except.error e ∈ cs) :
    ∃ e2, fetchChunks cs = .error e2 := by
  obtain ⟨e, he⟩ := h
  induction cs with
  | nil => simp at he
  | cons x t ih =>
    rcases x with e1 | c
    · exact ⟨e1, rfl⟩
    · have he2 : Except.error e ∈ t := by
        rcases List.mem_cons.mp he with h1 | h1
        · simp at h1
        · exact h1
      obtain ⟨e2, hf⟩ := ih he2
      exact ⟨e2, by simp [fetchChunks, hf]⟩

theorem flatten_ends_with_last (cs : List (List Nat)) (cN : List Nat)
    (h : cs.getLast? = some cN) : ∃ pre, cs.flatten = pre ++ cN := by
  induction cs with
  | nil => simp at h
  | cons c t ih =>
    cases t with
    | nil =>
      simp at h
      subst h
      exact ⟨[], by simp⟩
    | cons c2 t2 =>
      rw [List.getLast?_cons_cons] at h
      obtain ⟨pre, hp⟩ := ih h
      exact ⟨c ++ pre, by simp [hp]⟩

/-! ### Search and download claims -/

/-- C5: with a completing transfer of chunks `cs` and a successful metadata
lookup, both variants loop to completion and assemble the content as the
in-order concatenation of the chunks: server.py `download_file` returns
exactly those bytes, auth_setup.py `get_file` feeds exactly those bytes to
the UTF-8 decode; the assembled length is the sum of the chunk lengths, and
the buffer begins with the first chunk and ends with the last one. -/
theorem download_assembles_chunks (md : RemoteFileEntry) (cs : List (List Nat))
    (decode : List Nat → Except String String) :
    downloadFile ⟨.ok md, cs.map .ok⟩ =
      .ok ⟨⟨md.id, md.name, md.mimeType, md.webViewLink⟩, cs.flatten⟩ ∧
    getFile decode ⟨.ok md, cs.map .ok⟩ =
      (match md.webViewLink with
       | none => .error "KeyError: \x27webViewLink\x27"
       | some link =>
         match decode cs.flatten with
         | .error e => .error e
         | .ok s => .ok ⟨⟨md.id, md.name, md.mimeType, link⟩, s⟩) ∧
    cs.flatten.length = (cs.map List.length).sum ∧
    (∀ c1 t, cs = c1 :: t → cs.flatten.take c1.length = c1) ∧
    (∀ cN, cs.getLast? = some cN → ∃ pre, cs.flatten = pre ++ cN) := by
  refine ⟨?_, ?_, ?_, ?_, ?_⟩
  · simp [downloadFile, fetchChunks_all_ok]
  · simp [getFile, fetchChunks_all_ok]
  · simp
  · intro c1 t hcs
    subst hcs
    simp [List.take_left]
  · exact flatten_ends_with_last cs

/-- C5 witness: a two-chunk transfer `[1,2]` then `[3,4,5]` assembles to
`[1,2,3,4,5]`, length 5 = 2 + 3, beginning with the first chunk and ending
with the last. -/
theorem download_assembles_chunks_witness :
    downloadFile ⟨.ok entryEx, [[1, 2], [3, 4, 5]].map .ok⟩ =
      .ok ⟨⟨"id1", "budget one", "text/plain", some "https://drive/view1"⟩,
           [1, 2, 3, 4, 5]⟩ ∧
    ([1, 2, 3, 4, 5] : List Nat).length = [2, 3].sum ∧
    ([1, 2, 3, 4, 5] : List Nat).take 2 = [1, 2] ∧
    (∃ pre, ([1, 2, 3, 4, 5] : List Nat) = pre ++ [3, 4, 5]) := by
  have h := download_assembles_chunks entryEx [[1, 2], [3, 4, 5]]
    (fun _ => .ok "12345")
  exact ⟨h.1, h.2.2.1, h.2.2.2.1 [1, 2] [[3, 4, 5]] rfl,
    h.2.2.2.2 [3, 4, 5] rfl⟩

/-- C8: in both variants a failed metadata lookup aborts the call with the
wrapped error, and a failing chunk fetch makes the whole call fail — the
returned value is an error payload carrying only the message, so no
partially downloaded bytes are ever returned. -/
theorem download_failure_aborts (decode : List Nat → Except String String)
    (env : DownloadEnv) :
    (∀ e, env.metadata = .error e →
      downloadFile env = .error ("Error downloading file: " ++ e) ∧
      getFile decode env = .error e) ∧
    (∀ md, env.metadata = .ok md → (∃ e, Except.error e ∈ env.chunks) →
      (∃ e2, downloadFile env = .error ("Error downloading file: " ++ e2)) ∧
      (∃ e2, getFile decode env = .error e2)) := by
  constructor
  · intro e he
    constructor <;> simp [downloadFile, getFile, he]
  · intro md hmd hmem
    obtain ⟨e2, hf⟩ := fetchChunks_error_mem env.chunks hmem
    exact ⟨⟨e2, by simp [downloadFile, hmd, hf]⟩,
      ⟨e2, by simp [getFile, hmd, hf]⟩⟩

/-- C8 witness: a failed metadata lookup and a transfer whose second chunk
fails both produce pure error payloads in both variants. -/
theorem download_failure_aborts_witness :
    downloadFile ⟨.error "404 not found", []⟩ =
      .error ("Error downloading file: " ++ "404 not found") ∧
    getFile (fun _ => .ok "") ⟨.error "404 not found", []⟩ =
      .error "404 not found" ∧
    (∃ e2, downloadFile ⟨.ok entryEx, [.ok [1], .error "connection reset"]⟩ =
      .error ("Error downloading file: " ++ e2)) ∧
    (∃ e2, getFile (fun _ => .ok "") ⟨.ok entryEx, [.ok [1], .error "connection reset"]⟩ =
      .error e2) := by
  have h1 := (download_failure_aborts (fun _ => .ok "")
    ⟨.error "404 not found", []⟩).1 "404 not found" rfl
  have h2 := (download_failure_aborts (fun _ => .ok "")
    ⟨.ok entryEx, [.ok [1], .error "connection reset"]⟩).2 entryEx rfl
    ⟨"connection reset", by simp⟩
  exact ⟨h1.1, h1.2, h2.1, h2.2⟩

/-- C6 counterexample: the server.py variant drops the continuation token —
two listing responses that differ only in `nextPageToken` reshape to the
same output, and the full output value visibly carries no token field. -/
theorem formatServer_drops_token :
    formatSearchResponseServer ⟨some [entryEx], some "TOK"⟩ =
      formatSearchResponseServer ⟨some [entryEx], none⟩ ∧
    formatSearchResponseServer ⟨some [entryEx], some "TOK"⟩ =
      ⟨[⟨"id1", "budget one", "text/plain", some "https://drive/view1"⟩]⟩ :=
  ⟨rfl, rfl⟩

/-- C6 (amended): both variants reshape a listing response to one entry per
remote file entry, in response order, keeping exactly the narrowed fields
(id, name, MIME type, view link) and dropping every other remote field; the
auth_setup.py variant additionally passes the optional continuation token
through (provided every entry carries a view link — see C10), while the
server.py variant omits the continuation token from its output. -/
theorem searchResult_reshaping (response : ListResponse)
    (hlinks : ∀ it ∈ response.files.getD [], it.webViewLink.isSome = true) :
    formatSearchResponseAuth response =
      .ok ⟨(response.files.getD []).map
            (fun it => ⟨it.id, it.name, it.mimeType, it.webViewLink.getD ""⟩),
          response.nextPageToken⟩ ∧
    formatSearchResponseServer response =
      ⟨(response.files.getD []).map
        (fun it => ⟨it.id, it.name, it.mimeType, it.webViewLink⟩)⟩ := by
  constructor
  · simp [formatSearchResponseAuth, formatFilesAuth_all_some _ hlinks]
  · simp [formatSearchResponseServer, formatFilesServer_map]

/-- C6 witness: a two-entry response with a continuation token reshapes in
order with exactly the narrowed fields; auth_setup.py keeps the token. -/
theorem searchResult_reshaping_witness :
    formatSearchResponseAuth ⟨some [entryEx, entry2Ex], some "TOK"⟩ =
      .ok ⟨[⟨"id1", "budget one", "text/plain", "https://drive/view1"⟩,
            ⟨"id2", "budget two", "application/pdf", "https://drive/view2"⟩],
          some "TOK"⟩ ∧
    formatSearchResponseServer ⟨some [entryEx, entry2Ex], some "TOK"⟩ =
      ⟨[⟨"id1", "budget one", "text/plain", some "https://drive/view1"⟩,
        ⟨"id2", "budget two", "application/pdf", some "https://drive/view2"⟩]⟩ := by
  have h := searchResult_reshaping ⟨some [entryEx, entry2Ex], some "TOK"⟩
    (by decide)
  exact ⟨h.1, h.2⟩

/-- C7 counterexample: the one request the server.py variant issues carries
the raw query string as its filter — not the name-substring filter — and no
page-size or page-token parameter (there are no such arguments to pass
through). -/
theorem searchServer_raw_query_no_paging :
    (searchFilesServer (apiConst ⟨some [], none⟩) "report").requests =
      [⟨"report", none, none, listFields⟩] ∧
    ("report" : String) ≠ "name contains \x27report\x27" :=
  ⟨rfl, by decide⟩

/-- C7 (amended): each variant issues exactly one metadata-listing request
per call with no internal pagination loop; the auth_setup.py variant builds
the name-substring filter from the query and passes `page_size` and
`page_token` through unchanged (absent or present), while the server.py
variant sends the raw query as the filter with no paging parameters. -/
theorem search_request_shape (api : ListRequest → Except String ListResponse)
    (query : String) (page_size : Nat) (page_token : Option String) :
    (searchFilesAuth api query page_size page_token).requests =
      [⟨"name contains \x27" ++ query ++ "\x27", some page_size, page_token,
        listFields⟩] ∧
    (searchFilesServer api query).requests =
      [⟨query, none, none, listFields⟩] := by
  constructor
  · rcases hr : api (authListRequest query page_size page_token) with e | r
    · unfold searchFilesAuth
      rw [hr]
      simp [authListRequest]
    · unfold searchFilesAuth
      rw [hr]
      rcases hf : formatSearchResponseAuth r with e2 | v <;>
        simp [hf, authListRequest]
  · rcases hr : api (serverListRequest query) with e | r <;>
      (unfold searchFilesServer; rw [hr]; simp [serverListRequest])


/-- C9 counterexample: neither variant includes the query string in its
error: on an upstream failure "boom", the auth_setup.py error payload is
exactly "boom" and the server.py one is "Error searching files: boom" — the
query "report" occurs in neither message. -/
theorem search_error_lacks_query :
    (searchFilesAuth apiBoom "report" 10 none).result = .error "boom" ∧
    containsSeq "report".data "boom".data = false ∧
    (searchFilesServer apiBoom "report").result =
      .error "Error searching files: boom" ∧
    containsSeq "report".data "Error searching files: boom".data = false :=
  ⟨rfl, by decide, rfl, by decide⟩

/-- C9 (amended): on a remote API failure the auth_setup.py variant returns
the upstream error string verbatim as its error payload and the server.py
variant returns it wrapped with the "Error searching files" label; in both
variants the failed request is issued exactly once and never retried — but
the query string is not added to the error. -/
theorem search_failure_wrapping (api : ListRequest → Except String ListResponse)
    (query : String) (page_size : Nat) (page_token : Option String) (e : String)
    (ha : api (authListRequest query page_size page_token) = .error e)
    (hs : api (serverListRequest query) = .error e) :
    (searchFilesAuth api query page_size page_token).result = .error e ∧
    (searchFilesAuth api query page_size page_token).requests.length = 1 ∧
    (searchFilesServer api query).result =
      .error ("Error searching files: " ++ e) ∧
    (searchFilesServer api query).requests.length = 1 := by
  refine ⟨?_, ?_, ?_, ?_⟩ <;> simp [searchFilesAuth, searchFilesServer, ha, hs]

/-- C9 witness: the amended claim evaluated on an always-failing endpoint. -/
theorem search_failure_wrapping_witness :
    (searchFilesAuth apiBoom "budget" 10 none).result = .error "boom" ∧
    (searchFilesAuth apiBoom "budget" 10 none).requests.length = 1 ∧
    (searchFilesServer apiBoom "budget").result =
      .error ("Error searching files: " ++ "boom") ∧
    (searchFilesServer apiBoom "budget").requests.length = 1 :=
  search_failure_wrapping apiBoom "budget" 10 none "boom" rfl rfl

/-- C10: when a listing response contains an entry without a view-link
field, the auth_setup.py variant fails the whole call with an error payload
(its comprehension raises `KeyError`, caught as the error dict, so no file
list is returned at all), while the server.py variant maps the missing link
to `none` and returns the full reshaped result. -/
theorem missing_viewlink_variant_divergence
    (api : ListRequest → Except String ListResponse)
    (query : String) (page_size : Nat) (page_token : Option String)
    (response : ListResponse) (entries : List RemoteFileEntry)
    (hfiles : response.files = some entries)
    (hmiss : entries.any (fun it => it.webViewLink.isNone) = true)
    (ha : api (authListRequest query page_size page_token) = .ok response)
    (hs : api (serverListRequest query) = .ok response) :
    isErr (searchFilesAuth api query page_size page_token).result = true ∧
    (searchFilesServer api query).result =
      .ok ⟨entries.map (fun it => ⟨it.id, it.name, it.mimeType,
        it.webViewLink⟩)⟩ := by
  obtain ⟨e, he⟩ := formatFilesAuth_err_of_missing entries hmiss
  constructor
  · have hfa : formatSearchResponseAuth response = .error e := by
      simp [formatSearchResponseAuth, hfiles, he]
    simp [searchFilesAuth, ha, hfa, isErr]
  · simp [searchFilesServer, hs, formatSearchResponseServer, hfiles,
      formatFilesServer_map]

/-- C10 witness: a response whose second entry has no view link makes the
auth_setup.py search return an error payload while the server.py search
returns both entries, the second with a null view link. -/
theorem missing_viewlink_variant_divergence_witness :
    isErr (searchFilesAuth (apiConst ⟨some [entryEx, entryNoLinkEx], none⟩)
      "report" 10 none).result = true ∧
    (searchFilesServer (apiConst ⟨some [entryEx, entryNoLinkEx], none⟩)
      "report").result =
      .ok ⟨[⟨"id1", "budget one", "text/plain", some "https://drive/view1"⟩,
            ⟨"id3", "no link", "application/vnd.google-apps.form", none⟩]⟩ := by
  have h := missing_viewlink_variant_divergence
    (apiConst ⟨some [entryEx, entryNoLinkEx], none⟩) "report" 10 none
    ⟨some [entryEx, entryNoLinkEx], none⟩ [entryEx, entryNoLinkEx]
    rfl (by decide) rfl rfl
  exact ⟨h.1, h.2⟩

end GDrive
